import Mathlib

/-!
Verification of the dvdread-rs `DvdReader` wrapper (src/src/dvd_reader.rs).

The crate is a thin Rust binding over the libdvdread C library.  Pure logic
that lives in src/ (the volume-set-identifier accumulation loop, the
`udf_find_file` result dispatch, the `String::from_utf8(..).unwrap()`
conversions, the `disc_id` success-path rendering, the unconditional `Ok`
of `open_file`) is embedded directly from the Rust source.  Behaviour that
the claims depend on but whose code is not under src/ (the C functions
`DVDFileStat`, `DVDDiscID`, `DVDUDFCacheLevel`, and the multi-part read
stitching) is modelled from the specification, as marked on each such
definition.
-/

namespace DvdreadRs

/-- The four read domains of `DvdDomain` in src/src/dvd_reader.rs. -/
inductive DvdDomain where
  | infoFile
  | backupFile
  | menuVobs
  | titleVobs
deriving DecidableEq, Repr

/-- Model of the C `dvd_stat_t` struct filled in by `DVDFileStat`:
total size, number of parts, and the fixed nine-slot per-part size array. -/
structure DvdStat where
  size : Nat
  nr_parts : Nat
  parts_size : List Nat
deriving DecidableEq, Repr

/-- Two-decimal-digit rendering of a title number, as in the `VTS_%02d`
naming convention of DVD-Video file names. -/
def twoDigits (n : Nat) : String :=
  String.mk [Nat.digitChar ((n / 10) % 10), Nat.digitChar (n % 10)]

/-- Canonical on-disc file name for a (title, domain, part) triple.
Title 0 names the VIDEO_TS video-manager files; part is only meaningful
for the `titleVobs` domain (VTS_tt_k.VOB with k in 1..9). -/
def fileName (title : Nat) (domain : DvdDomain) (part : Nat) : String :=
  match domain with
  | DvdDomain.infoFile =>
      if title = 0 then ("VIDEO_TS.IFO") else ("VTS_") ++ twoDigits title ++ ("_0.IFO")
  | DvdDomain.backupFile =>
      if title = 0 then ("VIDEO_TS.BUP") else ("VTS_") ++ twoDigits title ++ ("_0.BUP")
  | DvdDomain.menuVobs =>
      if title = 0 then ("VIDEO_TS.VOB") else ("VTS_") ++ twoDigits title ++ ("_0.VOB")
  | DvdDomain.titleVobs =>
      ("VTS_") ++ twoDigits title ++ ("_") ++ String.mk [Nat.digitChar (part % 10)] ++ (".VOB")

/-- A volume, abstracted as the partial map from on-disc file names to the
size in bytes of the file of that name (`none` when no such file exists). -/
def Volume : Type := String → Option Nat

/-- Modelled from the spec: the part-collection loop of the C `DVDFileStat`
(not under src/).  For the `titleVobs` domain it probes VTS_tt_1.VOB,
VTS_tt_2.VOB, ... in order, recording each existing part size, and stops at
the first missing part (parts are numbered contiguously from 1, at most 9). -/
def collectPartsAux (vol : Volume) (title : Nat) : Nat → Nat → List Nat
  | 0, _ => []
  | fuel + 1, k =>
    match vol (fileName title DvdDomain.titleVobs k) with
    | some s => s :: collectPartsAux vol title fuel (k + 1)
    | none => []

/-- Part collection starting at part `k`: at most the parts `k..9` are
probed (the loop bound of the C implementation, `parts_size` having nine
slots). -/
def collectParts (vol : Volume) (title : Nat) (k : Nat) : List Nat :=
  collectPartsAux vol title (10 - k) k

/-- Modelled from the spec: the C `DVDFileStat` behaviour wrapped by
`DvdReader::file_stat` (the C body is not under src/).  Per the spec and the
doc comment in src/: the per-part sizes go to `parts_size[0..]`, the total
(sum of all parts) to `size`, the part count to `nr_parts`; only the
`titleVobs` domain may be multipart, every other domain stats the single
file named by (title, domain).  Failure is reported as the Rust wrapper
reports it, with the formatted error string. -/
def file_stat (vol : Volume) (title : Nat) (domain : DvdDomain) : Except String DvdStat :=
  match domain with
  | DvdDomain.titleVobs =>
      if title = 0 then Except.error ("Error opening file: -1")
      else
        match collectParts vol title 1 with
        | [] => Except.error ("Error opening file: -1")
        | parts =>
            Except.ok
              { size := parts.sum
                nr_parts := parts.length
                parts_size := parts ++ List.replicate (9 - parts.length) 0 }
  | d =>
      match vol (fileName title d 0) with
      | some s =>
          Except.ok { size := s, nr_parts := 1, parts_size := s :: List.replicate 8 0 }
      | none => Except.error ("Error opening file: -1")

/-- Embedding of `DvdReader::open_file` from src/: the wrapper does
`Ok(unsafe { *DVDOpenFile(..) })`.  The FFI result is abstracted as an
`Option` (`none` = the C function returned the null pointer).  The outer
`Option` is the halting behaviour of the Rust function: `none` means the
wrapper crashes (it dereferences the null pointer); it never constructs the
`Err` arm of its `Result`. -/
def open_file {α : Type} (ffi : Option α) : Option (Except String α) :=
  match ffi with
  | none => none
  | some f => some (Except.ok f)

/-- Embedding of `DvdReader::udf_find_file` from src/: the underlying
`UDFFindFile` lookup is abstracted by its two outputs, the returned starting
block and the `filesize` out-parameter.  The wrapper matches the returned
block: 0 becomes the not-found error, anything else is returned together
with the file size. -/
def udf_find_file (startBlock : Nat) (filesize : Nat) : Except String (Nat × Nat) :=
  match startBlock with
  | 0 => Except.error ("File not found")
  | v => Except.ok (v, filesize)

/-- Modelled from the spec: the C `DVDUDFCacheLevel` wrapped by
`DvdReader::udf_cache_level` (the C body is not under src/).  The state is
the volume's current cache level.  A negative argument (-1) is a query: the
current level is returned and the state is untouched; otherwise the argument
is clamped to 0/1, stored, and returned.  The result pair is
(new state, returned level). -/
def dvdUDFCacheLevel (st : Int) (level : Int) : Int × Int :=
  if level < 0 then (st, st)
  else if level > 1 then (1, 1)
  else (level, level)

/-- Embedding of `DvdReader::udf_cache_level` from src/: a direct forward
to `DVDUDFCacheLevel`. -/
def udf_cache_level (st : Int) (level : Int) : Int × Int :=
  dvdUDFCacheLevel st level

/-- Decimal digit-character rendering of a byte, modelling Rust's
`u8::to_string` (which the src/ `disc_id` applies to its single byte):
one, two or three decimal digits, no leading zero, exact for every value
below 1000 and hence for every u8. -/
def decimalDigits (n : Nat) : List Char :=
  if n < 10 then [Nat.digitChar n]
  else if n < 100 then [Nat.digitChar (n / 10), Nat.digitChar (n % 10)]
  else [Nat.digitChar (n / 100), Nat.digitChar ((n / 10) % 10), Nat.digitChar (n % 10)]

/-- The canonical textual form of a 16-byte digest demanded by the spec:
two lowercase hexadecimal digits per byte, most-significant byte
(digest[0]) first, 32 characters in all. -/
def canonicalHex32 (digest : List Nat) : List Char :=
  (digest.map (fun b => [Nat.digitChar (b / 16), Nat.digitChar (b % 16)])).flatten

/-- A volume abstracted by file contents: the partial map from on-disc file
names to the byte lists of the files (`none` when the file is missing or
unreadable). -/
def ContentVolume : Type := String → Option (List Nat)

/-- Modelled from the spec: the digest-input gathering of the C `DVDDiscID`
(not under src/).  Per the spec and the src/ doc comment, the identity is a
hash of VIDEO_TS.IFO followed by each existing VTS_tt_0.IFO in ascending
title order; VIDEO_TS.IFO must be readable, otherwise the call fails
(`none`).  On success it yields the ordered concatenation that is fed to
the (external) 128-bit hash. -/
def dvdDiscIDInput (vol : ContentVolume) : Option (List Nat) :=
  match vol (fileName 0 DvdDomain.infoFile 0) with
  | none => none
  | some v0 =>
      some (v0 ++ ((List.range 99).filterMap
        (fun i => vol (fileName (i + 1) DvdDomain.infoFile 0))).flatten)

/-- Embedding of `DvdReader::disc_id` from src/, with the external 128-bit
hash passed in as a parameter (`md5`, the external collaborator; it maps the
gathered input to the 16 digest bytes `DVDDiscID` writes out).  The Rust
wrapper passes a single `c_uchar` as the 16-byte output buffer, so after the
call its local variable holds only the first digest byte, and the success
value is `u8::to_string` of that byte: the decimal rendering of
`digest[0]`.  On failure it returns the formatted error string. -/
def disc_id (md5 : List Nat → List Nat) (vol : ContentVolume) : Except String (List Char) :=
  match dvdDiscIDInput vol with
  | none => Except.error ("Error opening file: -1")
  | some input => Except.ok (decimalDigits ((md5 input).headD 0))

/-- Is this byte a UTF-8 continuation byte (0x80..0xBF)? -/
def isCont (b : Nat) : Bool :=
  decide (0x80 ≤ b) && decide (b ≤ 0xBF)

/-- UTF-8 well-formedness of a byte sequence, as checked by Rust's
`String::from_utf8`: ASCII, and 2-, 3-, 4-byte sequences with the shortest
encoding, surrogates excluded, and values above U+10FFFF excluded. -/
def validUtf8 : List Nat → Bool
  | [] => true
  | b :: rest =>
    if b < 0x80 then validUtf8 rest
    else if b < 0xC2 then false
    else if b < 0xE0 then
      match rest with
      | c1 :: r => isCont c1 && validUtf8 r
      | [] => false
    else if b < 0xF0 then
      match rest with
      | c1 :: c2 :: r =>
          (if b = 0xE0 then decide (0xA0 ≤ c1) && decide (c1 ≤ 0xBF)
           else if b = 0xED then decide (0x80 ≤ c1) && decide (c1 ≤ 0x9F)
           else isCont c1) && isCont c2 && validUtf8 r
      | _ => false
    else if b < 0xF5 then
      match rest with
      | c1 :: c2 :: c3 :: r =>
          (if b = 0xF0 then decide (0x90 ≤ c1) && decide (c1 ≤ 0xBF)
           else if b = 0xF4 then decide (0x80 ≤ c1) && decide (c1 ≤ 0x8F)
           else isCont c1) && isCont c2 && isCont c3 && validUtf8 r
      | _ => false
    else false

/-- Model of `String::from_utf8(bytes.to_vec()).unwrap()` as used in src/:
the identity on the byte buffer when it is valid UTF-8, and a panic
(`none`) otherwise. -/
def stringFromUtf8Unwrap (bytes : List Nat) : Option (List Nat) :=
  if validUtf8 bytes then some bytes else none

/-- Embedding of the volume-identifier conversion on the success path of
`DvdReader::udf_volume_info` (src/ line 196): the 32-byte `volid` buffer is
pushed through `String::from_utf8(..).unwrap()`; `none` is the panic. -/
def udf_volume_info_volid (volid : List Nat) : Option (List Nat) :=
  stringFromUtf8Unwrap volid

/-- Embedding of the volume-identifier conversion on the success path of
`DvdReader::iso_volume_info` (src/ line 249), identical to the UDF one. -/
def iso_volume_info_volid (volid : List Nat) : Option (List Nat) :=
  stringFromUtf8Unwrap volid

/-- Embedding of `DvdReader::udf_get_volume_identifier` from src/: the FFI
result code is returned together with the buffer pushed through
`String::from_utf8(..).unwrap()`; `none` is the panic. -/
def udf_get_volume_identifier (result : Int) (buffer : List Nat) : Option (Int × List Nat) :=
  (stringFromUtf8Unwrap buffer).map (fun s => (result, s))

/-- Embedding of `DvdReader::udf_get_volume_set_identifier` from src/, the
same conversion applied to the 128-byte buffer. -/
def udf_get_volume_set_identifier (result : Int) (buffer : List Nat) : Option (Int × List Nat) :=
  (stringFromUtf8Unwrap buffer).map (fun s => (result, s))

/-- Embedding of the volume-set-identifier accumulation loop shared by
`udf_volume_info` and `iso_volume_info` in src/ (lines 197-206 and
250-259): `volsetidout` starts at 0; for i in 0..16 the i-th buffer byte is
added and, except after the last byte, the accumulator is shifted left by
8 bits.  u128 arithmetic is modelled on Nat with reduction mod 2^128. -/
def volsetidStep (volsetid : List Nat) (acc : Nat) (i : Nat) : Nat :=
  let acc1 := (acc + volsetid.getD i 0) % 2 ^ 128
  if i < 15 then (acc1 * 2 ^ 8) % 2 ^ 128 else acc1

/-- The whole loop: `for i in 0..16 { ... }` folding `volsetidStep` from 0. -/
def volsetidLoop (volsetid : List Nat) : Nat :=
  (List.range 16).foldl (volsetidStep volsetid) 0

/-- The u128 second component of `DvdReader::udf_volume_info`'s success
value (src/ lines 197-206). -/
def udf_volume_info_volsetid (volsetid : List Nat) : Nat :=
  volsetidLoop volsetid

/-- The u128 second component of `DvdReader::iso_volume_info`'s success
value (src/ lines 250-259). -/
def iso_volume_info_volsetid (volsetid : List Nat) : Nat :=
  volsetidLoop volsetid

/-- Modelled from the spec: the MultiPartFile read stitcher (§4.6, not
under src/).  Given the parts of a multi-part file in order and a logical
(offset, length) request, it walks the parts, skips the parts wholly before
the offset, reads the overlapped range of each overlapping part, and
concatenates the per-part reads in order. -/
def multiPartRead : List (List Nat) → Nat → Nat → List Nat
  | [], _, _ => []
  | p :: rest, off, len =>
    if p.length ≤ off then multiPartRead rest (off - p.length) len
    else
      let chunk := (p.drop off).take len
      chunk ++ multiPartRead rest 0 (len - chunk.length)

/-- Big-endian value of the first `n` entries of a byte list:
`beVal b n = b[0]*256^(n-1) + ... + b[n-1]`. -/
def beVal (b : List Nat) : Nat → Nat
  | 0 => 0
  | n + 1 => beVal b n * 256 + b.getD n 0

/-- A concrete volume used to instantiate the stat theorems: the example
scenario of the spec (VIDEO_TS.IFO of 12288 bytes, VTS_01_0.IFO of 8192
bytes, and a two-part title 2 VOB set). -/
def exampleVolume : Volume := fun s =>
  if s = ("VTS_02_1.VOB") then some 1073741824
  else if s = ("VTS_02_2.VOB") then some 536870912
  else if s = ("VTS_01_0.IFO") then some 8192
  else if s = ("VIDEO_TS.IFO") then some 12288
  else none

/-- The stat `file_stat exampleVolume 2 titleVobs` produces. -/
def exampleStat : DvdStat :=
  { size := 1610612736
    nr_parts := 2
    parts_size := [1073741824, 536870912, 0, 0, 0, 0, 0, 0, 0] }

/-- The stat `file_stat exampleVolume 1 infoFile` produces. -/
def exampleInfoStat : DvdStat :=
  { size := 8192
    nr_parts := 1
    parts_size := [8192, 0, 0, 0, 0, 0, 0, 0, 0] }

/-- A concrete 16-byte digest, every byte 171 = 0xab. -/
def exampleDigest : List Nat := List.replicate 16 171

/-- A concrete content volume holding only a VIDEO_TS.IFO. -/
def exampleContentVolume : ContentVolume := fun s =>
  if s = ("VIDEO_TS.IFO") then some [0] else none

/-- Decidable equality for `Except`, so that concrete wrapper results can
be checked by evaluation. -/
instance instDecEqExcept {ε α : Type} [DecidableEq ε] [DecidableEq α] :
    DecidableEq (Except ε α) := fun x y =>
  match x, y with
  | Except.error a, Except.error b =>
      if h : a = b then isTrue (by subst h; rfl)
      else isFalse (fun hc => by cases hc; exact h rfl)
  | Except.ok a, Except.ok b =>
      if h : a = b then isTrue (by subst h; rfl)
      else isFalse (fun hc => by cases hc; exact h rfl)
  | Except.error _, Except.ok _ => isFalse (fun hc => by cases hc)
  | Except.ok _, Except.error _ => isFalse (fun hc => by cases hc)

/-! Helper lemmas. -/

theorem beVal_lt (b : List Nat) (hb : ∀ j, j < 16 → b.getD j 0 < 256) :
    ∀ n, n ≤ 16 → beVal b n < 256 ^ n := by
  intro n
  induction n with
  | zero => intro _; simp [beVal]
  | succ n ih =>
    intro hn
    have h1 := ih (by omega)
    have h2 := hb n (by omega)
    have hp : 1 ≤ 256 ^ n := Nat.one_le_pow _ _ (by omega)
    have hs : 256 ^ (n + 1) = 256 ^ n * 256 := pow_succ 256 n
    simp only [beVal]
    have hm : beVal b n * 256 ≤ (256 ^ n - 1) * 256 :=
      Nat.mul_le_mul_right 256 (by omega)
    omega

theorem beVal_eq_sum (b : List Nat) :
    ∀ n, beVal b n = ∑ i ∈ Finset.range n, b.getD i 0 * 256 ^ (n - 1 - i) := by
  intro n
  induction n with
  | zero => simp [beVal]
  | succ n ih =>
    rw [Finset.sum_range_succ]
    simp only [beVal, ih, Finset.sum_mul]
    congr 1
    · apply Finset.sum_congr rfl
      intro i hi
      rw [Finset.mem_range] at hi
      rw [mul_assoc, ← pow_succ]
      congr 2
      omega
    · simp

theorem volsetidStep_last (b : List Nat) (hb : ∀ j, j < 16 → b.getD j 0 < 256)
    (acc : Nat) (h : acc = beVal b 15 * 256) :
    volsetidStep b acc 15 = beVal b 16 := by
  have h256 : (256 : Nat) ^ (16 : Nat) = 2 ^ 128 := by norm_num
  have hlt : beVal b 16 < 2 ^ 128 := by
    have := beVal_lt b hb 16 (by omega)
    omega
  have h1 : beVal b 15 * 256 + b.getD 15 0 = beVal b 16 := rfl
  rw [volsetidStep, h, if_neg (by omega)]
  simp only [h1]
  exact Nat.mod_eq_of_lt hlt

theorem volsetidStep_mid (b : List Nat) (hb : ∀ j, j < 16 → b.getD j 0 < 256)
    (i : Nat) (hi : i < 15) (acc : Nat) (h : acc = beVal b i * 256) :
    volsetidStep b acc i = beVal b (i + 1) * 256 := by
  have h256 : (256 : Nat) ^ (16 : Nat) = 2 ^ 128 := by norm_num
  have hlt : beVal b (i + 1) < 2 ^ 128 := by
    calc beVal b (i + 1) < 256 ^ (i + 1) := beVal_lt b hb (i + 1) (by omega)
      _ ≤ 256 ^ (16 : Nat) := Nat.pow_le_pow_right (by omega) (by omega)
      _ = 2 ^ 128 := h256
  have hlt2 : beVal b (i + 1) * 256 < 2 ^ 128 := by
    calc beVal b (i + 1) * 256
        < 256 ^ (i + 1) * 256 :=
          (Nat.mul_lt_mul_right (by omega)).mpr (beVal_lt b hb (i + 1) (by omega))
      _ = 256 ^ (i + 1 + 1) := (pow_succ 256 (i + 1)).symm
      _ ≤ 256 ^ (16 : Nat) := Nat.pow_le_pow_right (by omega) (by omega)
      _ = 2 ^ 128 := h256
  have h1 : beVal b i * 256 + b.getD i 0 = beVal b (i + 1) := rfl
  rw [volsetidStep, h, if_pos hi]
  simp only [h1, Nat.mod_eq_of_lt hlt]
  have h2 : (2 : Nat) ^ 8 = 256 := by norm_num
  rw [h2]
  exact Nat.mod_eq_of_lt hlt2

theorem volsetidLoop_inv (b : List Nat) (hb : ∀ j, j < 16 → b.getD j 0 < 256) :
    ∀ k i, i + (k + 1) = 16 →
      (List.range' i (k + 1)).foldl (volsetidStep b) (beVal b i * 256) = beVal b 16 := by
  intro k
  induction k with
  | zero =>
    intro i hi
    have hi15 : i = 15 := by omega
    subst hi15
    have hr : List.range' 15 (0 + 1) = [15] := rfl
    rw [hr, List.foldl_cons, List.foldl_nil]
    exact volsetidStep_last b hb _ rfl
  | succ k ih =>
    intro i hi
    rw [List.range'_succ, List.foldl_cons, volsetidStep_mid b hb i (by omega) _ rfl]
    exact ih (i + 1) (by omega)

theorem volsetidLoop_eq_beVal (b : List Nat) (hb : ∀ j, j < 16 → b.getD j 0 < 256) :
    volsetidLoop b = beVal b 16 := by
  have h := volsetidLoop_inv b hb 15 0 (by omega)
  simpa [volsetidLoop, List.range_eq_range', beVal] using h

theorem multiPartRead_eq_slice (parts : List (List Nat)) :
    ∀ off len, multiPartRead parts off len = (parts.flatten.drop off).take len := by
  induction parts with
  | nil => intro off len; simp [multiPartRead]
  | cons p rest ih =>
    intro off len
    simp only [multiPartRead, List.flatten_cons]
    by_cases hoff : p.length ≤ off
    · rw [if_pos hoff, ih, List.drop_append_eq_append_drop,
        List.drop_eq_nil_of_le hoff, List.nil_append]
    · rw [if_neg hoff, ih]
      have hsub : off - p.length = 0 := Nat.sub_eq_zero_of_le (by omega)
      rw [List.drop_append_eq_append_drop, hsub]
      simp only [List.drop_zero]
      rw [List.take_append_eq_append_take]
      have hlen : len - ((p.drop off).take len).length = len - (p.drop off).length := by
        rw [List.length_take]
        omega
      rw [hlen]

/-! Claim theorems. -/

/-- C1: for every (title, domain) pair on which `file_stat` succeeds, the
returned stat's total `size` equals the sum of its first `nr_parts`
per-part sizes. -/
theorem file_stat_size_eq_sum_parts (vol : Volume) (title : Nat) (domain : DvdDomain)
    (st : DvdStat) (h : file_stat vol title domain = Except.ok st) :
    st.size = (st.parts_size.take st.nr_parts).sum := by
  cases domain with
  | titleVobs =>
    simp only [file_stat] at h
    split at h
    · simp at h
    · split at h
      · simp at h
      · rw [Except.ok.injEq] at h
        subst h
        rw [List.take_left]
  | infoFile =>
    simp only [file_stat] at h
    split at h
    · rw [Except.ok.injEq] at h
      subst h
      simp
    · simp at h
  | backupFile =>
    simp only [file_stat] at h
    split at h
    · rw [Except.ok.injEq] at h
      subst h
      simp
    · simp at h
  | menuVobs =>
    simp only [file_stat] at h
    split at h
    · rw [Except.ok.injEq] at h
      subst h
      simp
    · simp at h

/-- C1 witness: the spec's example scenario, title 2 with a two-part VOB
set of sizes 1073741824 and 536870912, total 1610612736. -/
theorem file_stat_size_eq_sum_parts_witness :
    file_stat exampleVolume 2 DvdDomain.titleVobs = Except.ok exampleStat ∧
    exampleStat.size = (exampleStat.parts_size.take exampleStat.nr_parts).sum :=
  ⟨by decide, file_stat_size_eq_sum_parts exampleVolume 2 DvdDomain.titleVobs exampleStat
    (by decide)⟩

/-- C2: a successful `file_stat` on any domain other than `titleVobs`
reports exactly one part; only `titleVobs` can ever report more. -/
theorem file_stat_only_titlevobs_multipart (vol : Volume) (title : Nat) (domain : DvdDomain)
    (st : DvdStat) (h : file_stat vol title domain = Except.ok st) :
    (domain ≠ DvdDomain.titleVobs → st.nr_parts = 1) ∧
    (1 < st.nr_parts → domain = DvdDomain.titleVobs) := by
  cases domain with
  | titleVobs => exact ⟨fun hd => absurd rfl hd, fun _ => rfl⟩
  | infoFile =>
    simp only [file_stat] at h
    split at h
    · rw [Except.ok.injEq] at h
      subst h
      exact ⟨fun _ => rfl, fun hlt => absurd hlt (by simp)⟩
    · simp at h
  | backupFile =>
    simp only [file_stat] at h
    split at h
    · rw [Except.ok.injEq] at h
      subst h
      exact ⟨fun _ => rfl, fun hlt => absurd hlt (by simp)⟩
    · simp at h
  | menuVobs =>
    simp only [file_stat] at h
    split at h
    · rw [Except.ok.injEq] at h
      subst h
      exact ⟨fun _ => rfl, fun hlt => absurd hlt (by simp)⟩
    · simp at h

/-- C2 witness: the info file of title 1 stats with exactly one part. -/
theorem file_stat_only_titlevobs_multipart_witness :
    file_stat exampleVolume 1 DvdDomain.infoFile = Except.ok exampleInfoStat ∧
    exampleInfoStat.nr_parts = 1 :=
  ⟨by decide,
    (file_stat_only_titlevobs_multipart exampleVolume 1 DvdDomain.infoFile exampleInfoStat
      (by decide)).1 (by decide)⟩

/-- C3: an in-range multi-part read, part-boundary-straddling ones
included, returns exactly the contiguous slice of the in-order
concatenation of the parts — no gap and no duplication at any boundary —
and the full-range read returns the whole concatenation. -/
theorem multiPartRead_boundary (parts : List (List Nat)) (off len : Nat)
    (_hrange : off + len ≤ parts.flatten.length) :
    multiPartRead parts off len = (parts.flatten.drop off).take len ∧
    multiPartRead parts 0 parts.flatten.length = parts.flatten := by
  refine ⟨multiPartRead_eq_slice parts off len, ?_⟩
  rw [multiPartRead_eq_slice]
  simp

/-- C3 witness: reading 2 bytes at offset 2 of parts [1,2,3] and [4,5]
straddles the part boundary and returns [3, 4]. -/
theorem multiPartRead_boundary_witness :
    2 + 2 ≤ ([[1, 2, 3], [4, 5]] : List (List Nat)).flatten.length ∧
    multiPartRead [[1, 2, 3], [4, 5]] 2 2 =
      ((([[1, 2, 3], [4, 5]] : List (List Nat)).flatten.drop 2).take 2) :=
  ⟨by decide, (multiPartRead_boundary [[1, 2, 3], [4, 5]] 2 2 (by decide)).1⟩

/-- C4: evaluation of the `disc_id` success path at a concrete digest.  The
src/ wrapper hands `DVDDiscID` a single-byte buffer and renders that one
byte with `u8::to_string`, so for a digest of sixteen 0xab bytes it returns
the three-character decimal string "171", not the 32-lowercase-hex-digit
canonical rendering the claim describes. -/
theorem disc_id_renders_single_byte_decimal :
    disc_id (fun _ => exampleDigest) exampleContentVolume = Except.ok ['1', '7', '1'] ∧
    (canonicalHex32 exampleDigest).length = 32 ∧
    decimalDigits 171 ≠ canonicalHex32 exampleDigest := by
  refine ⟨by decide, by decide, by decide⟩

/-- C5: `disc_id` fails with the formatted error whenever VIDEO_TS.IFO is
missing or unreadable, and can succeed only when VIDEO_TS.IFO is readable;
no digest value is ever returned on such volumes. -/
theorem disc_id_requires_video_ts (md5 : List Nat → List Nat) (vol : ContentVolume) :
    (vol (fileName 0 DvdDomain.infoFile 0) = none →
      disc_id md5 vol = Except.error ("Error opening file: -1")) ∧
    (∀ s, disc_id md5 vol = Except.ok s →
      (vol (fileName 0 DvdDomain.infoFile 0)).isSome = true) := by
  constructor
  · intro h
    simp [disc_id, dvdDiscIDInput, h]
  · intro s h
    rcases hv : vol (fileName 0 DvdDomain.infoFile 0) with _ | v
    · simp [disc_id, dvdDiscIDInput, hv] at h
    · simp [hv]

/-- C5 witness: on the empty volume (no readable file at all, in particular
no VIDEO_TS.IFO) `disc_id` returns the error, whatever the hash is. -/
theorem disc_id_requires_video_ts_witness :
    disc_id (fun _ => List.replicate 16 0) (fun _ => none) =
      Except.error ("Error opening file: -1") :=
  (disc_id_requires_video_ts (fun _ => List.replicate 16 0) (fun _ => none)).1 rfl

/-- C6: evaluation of the `open_file` wrapper.  When the underlying
`DVDOpenFile` returns the null pointer (the title/domain pair does not
resolve) the wrapper crashes on the dereference (`none`) instead of
returning a `NotFound` error, and on no input does it ever produce the
`Err` arm of its `Result`: its only outcomes are the crash and `Ok`. -/
theorem open_file_never_not_found :
    open_file (none : Option Unit) = none ∧
    ∀ r : Option Unit, open_file r = none ∨ open_file r = some (Except.ok ()) := by
  refine ⟨rfl, ?_⟩
  intro r
  cases r with
  | none => exact Or.inl rfl
  | some f => exact Or.inr rfl

/-- C7: querying the cache level with -1 returns the current level and
leaves the cache state unchanged, and for every input level the call
returns a defined result (the query answer or the clamped stored level). -/
theorem udf_cache_level_query_pure :
    (∀ st : Int, udf_cache_level st (-1) = (st, st)) ∧
    (∀ st level : Int, udf_cache_level st level = (st, st) ∨
      udf_cache_level st level = (0, 0) ∨ udf_cache_level st level = (1, 1)) := by
  constructor
  · intro st
    simp [udf_cache_level, dvdUDFCacheLevel]
  · intro st level
    simp only [udf_cache_level, dvdUDFCacheLevel]
    split
    · exact Or.inl rfl
    · split
      · exact Or.inr (Or.inr rfl)
      · rename_i h1 h2
        have : level = 0 ∨ level = 1 := by omega
        rcases this with h | h <;> subst h
        · exact Or.inr (Or.inl rfl)
        · exact Or.inr (Or.inr rfl)

/-- C8: `udf_find_file` reports the not-found error exactly when the
underlying `UDFFindFile` lookup yields starting block 0, and otherwise
returns the starting block together with the size out-parameter. -/
theorem udf_find_file_not_found_iff (startBlock filesize : Nat) :
    (udf_find_file startBlock filesize = Except.error ("File not found") ↔ startBlock = 0) ∧
    (startBlock ≠ 0 → udf_find_file startBlock filesize = Except.ok (startBlock, filesize)) := by
  cases startBlock with
  | zero => exact ⟨⟨fun _ => rfl, fun _ => rfl⟩, fun h => absurd rfl h⟩
  | succ n =>
    refine ⟨⟨fun h => ?_, fun h => by simp at h⟩, fun _ => rfl⟩
    simp [udf_find_file] at h

/-- C8 witness: a lookup yielding block 5 and size 100 is returned as-is. -/
theorem udf_find_file_not_found_iff_witness :
    udf_find_file 5 100 = Except.ok (5, 100) :=
  (udf_find_file_not_found_iff 5 100).2 (by decide)

/-- C9: the u128 produced by the accumulation loop of `udf_volume_info` and
`iso_volume_info` is the big-endian interpretation of the 16
VolumeSetIdentifier bytes: the sum of byte i times 256^(15-i), byte 0 most
significant. -/
theorem volume_info_volsetid_bigendian (b : List Nat)
    (hb : ∀ j, j < 16 → b.getD j 0 < 256) :
    udf_volume_info_volsetid b = ∑ i ∈ Finset.range 16, b.getD i 0 * 256 ^ (15 - i) ∧
    iso_volume_info_volsetid b = ∑ i ∈ Finset.range 16, b.getD i 0 * 256 ^ (15 - i) := by
  have h := volsetidLoop_eq_beVal b hb
  have h2 := beVal_eq_sum b 16
  constructor <;>
    simp only [udf_volume_info_volsetid, iso_volume_info_volsetid, h, h2]

/-- C9 witness: the all-0xff buffer maps to 2^128 - 1, the big-endian sum
of sixteen 255 bytes. -/
theorem volume_info_volsetid_bigendian_witness :
    udf_volume_info_volsetid (List.replicate 16 255) =
      ∑ i ∈ Finset.range 16, (List.replicate 16 (255 : Nat)).getD i 0 * 256 ^ (15 - i) :=
  (volume_info_volsetid_bigendian (List.replicate 16 255) (by decide)).1

/-- C10: on any byte buffer that is not valid UTF-8 — possible for the
Latin-1 identifier fields, which may hold bytes at or above 0x80 — all four
identifier-returning wrappers panic in `String::from_utf8(..).unwrap()`
(modelled as `none`) instead of returning an error value. -/
theorem volume_info_utf8_panic (buffer : List Nat) (h : validUtf8 buffer = false) :
    udf_volume_info_volid buffer = none ∧
    iso_volume_info_volid buffer = none ∧
    (∀ result : Int, udf_get_volume_identifier result buffer = none) ∧
    (∀ result : Int, udf_get_volume_set_identifier result buffer = none) := by
  refine ⟨?_, ?_, ?_, ?_⟩ <;>
    simp [udf_volume_info_volid, iso_volume_info_volid, udf_get_volume_identifier,
      udf_get_volume_set_identifier, stringFromUtf8Unwrap, h]

/-- C10 witness: a 32-byte volid buffer holding the Latin-1 byte 0xc3
followed by NUL padding is not valid UTF-8, and every wrapper panics on
it. -/
theorem volume_info_utf8_panic_witness :
    validUtf8 (195 :: List.replicate 31 0) = false ∧
    udf_volume_info_volid (195 :: List.replicate 31 0) = none ∧
    iso_volume_info_volid (195 :: List.replicate 31 0) = none ∧
    udf_get_volume_identifier 32 (195 :: List.replicate 31 0) = none ∧
    udf_get_volume_set_identifier 128 (195 :: List.replicate 31 0) = none :=
  have h := volume_info_utf8_panic (195 :: List.replicate 31 0) (by decide)
  ⟨by decide, h.1, h.2.1, h.2.2.1 32, h.2.2.2 128⟩

end DvdreadRs
